import Mathlib

/-!
Verification of the photo-gallery backend (`app.py`): a shallow embedding of
the metadata reconciler, ID allocator, collection/photo linker and the photo
and collection lifecycle handlers, with theorems checking the specification's
claims against them.

Python values that may hold either an integer, a string or `None` (notably
`collection_id`, which drifts between `int` and `str` across the two stores)
are modelled by `CVal`.  External effects (the remote store, the local cache
file, clock, uuid) are passed in explicitly: a handler receives the loaded
snapshots and booleans telling whether each external call succeeds, and
returns the response together with the state each store would be left in.
-/

namespace App

/-- A dynamically-typed Python value as it appears in `collection_id` fields:
`None`, an `int`, or a `str`. -/
inductive CVal where
  | vnull : CVal
  | vint : Int → CVal
  | vstr : String → CVal
deriving DecidableEq, Repr

/-- Python `==` on `CVal`: equal only within the same type (`3 == "3"` is
`False` in Python, `None == None` is `True`). -/
def pyEq : CVal → CVal → Bool
  | .vnull, .vnull => true
  | .vint a, .vint b => a == b
  | .vstr a, .vstr b => a == b
  | _, _ => false

/-- Python `str(...)` on a `CVal`. -/
def pyStr : CVal → String
  | .vnull => "None"
  | .vint n => toString n
  | .vstr s => s

/-- Python truthiness of a `CVal`: `None`, `0` and `""` are falsy. -/
def pyTruthy : CVal → Bool
  | .vnull => false
  | .vint n => n != 0
  | .vstr s => s != ""

/-- Digit-string parsing used by `pyParseInt`. -/
def digitsToNat (l : List Char) : Option Nat :=
  match l with
  | [] => none
  | _ =>
    if l.all Char.isDigit then
      some (l.foldl (fun a c => a * 10 + (c.toNat - 48)) 0)
    else none

/-- Python `int(str)`: an optional sign followed by decimal digits;
`none` models the raised `ValueError`. -/
def pyParseInt (l : List Char) : Option Int :=
  match l with
  | '-' :: rest => (digitsToNat rest).map (fun m => -(m : Int))
  | _ => (digitsToNat l).map (fun m => (m : Int))

/-- Python `int(...)` on a `CVal`; `none` models the raised
`ValueError`/`TypeError`. -/
def pyInt : CVal → Option Int
  | .vnull => none
  | .vint n => some n
  | .vstr s => pyParseInt s.data

/-- A photo metadata record, as built by `load_photos_from_cloudinary` /
`upload_photo` in `app.py`. -/
structure Photo where
  id : Int
  filename : String
  title : String
  description : String
  collection_id : CVal
  cloudinary_url : String
  cloudinary_public_id : Option String
  image_url : String
  upload_date : String
  storage_type : String
deriving DecidableEq, Repr

/-- A collection record (`create_collection` in `app.py`). -/
structure Collection where
  id : Int
  name : String
  created_date : String
deriving DecidableEq, Repr

/-- Helper to build a concrete photo for examples: id, collection_id,
upload date and optional Cloudinary public id; other fields fixed. -/
def mkPhoto (i : Int) (cid : CVal) (date : String) (pid : Option String) : Photo :=
  ⟨i, "f.jpg", "t", "", cid, "", pid, "", date, "local"⟩

/-- Outcome of a remote (Cloudinary) query: not configured, raised an
exception, or succeeded with a list of entities. -/
inductive RemoteResult (α : Type) where
  | unconfigured : RemoteResult α
  | failure : RemoteResult α
  | success : List α → RemoteResult α
deriving DecidableEq

/-- `load_photos_from_cloudinary` / `load_collections_from_cloudinary`
return `[]` both when the remote store is unconfigured and when the query
raises; otherwise the queried list. -/
def remote_result_list {α : Type} : RemoteResult α → List α
  | .unconfigured => []
  | .failure => []
  | .success l => l

/-- `load_photos_data`: remote first; a nonempty remote result is returned
and cached locally (best-effort, `cache_write_ok` tells whether the write
succeeds); otherwise fall back to the local file (`none` = absent or
unreadable, yielding `[]`).  Returns the loaded list and the local file's
content afterwards. -/
def load_photos_data (remote : RemoteResult Photo) (local_file : Option (List Photo))
    (cache_write_ok : Bool) : List Photo × Option (List Photo) :=
  match remote_result_list remote with
  | [] => (local_file.getD [], local_file)
  | p :: rest => (p :: rest, if cache_write_ok then some (p :: rest) else local_file)

/-- `load_collections_data`: same reconciliation shape as `load_photos_data`,
over the collections document. -/
def load_collections_data (remote : RemoteResult Collection)
    (local_file : Option (List Collection)) (cache_write_ok : Bool) :
    List Collection × Option (List Collection) :=
  match remote_result_list remote with
  | [] => (local_file.getD [], local_file)
  | c :: rest => (c :: rest, if cache_write_ok then some (c :: rest) else local_file)

/-- `save_collections_data`: remote write first when configured
(`save_collections_to_cloudinary` returns `False` when unconfigured), then
always the local write; overall success is the remote outcome when
configured, else the local outcome.  Returns (success, remote document
afterwards, local file afterwards). -/
def save_collections_data (collections_data : List Collection) (configured : Bool)
    (remote_write_ok : Bool) (local_write_ok : Bool)
    (remote_doc : Option (List Collection)) (local_file : Option (List Collection)) :
    Bool × Option (List Collection) × Option (List Collection) :=
  let cloudinary_success := configured && remote_write_ok
  let remote_doc' := if cloudinary_success then some collections_data else remote_doc
  let local_success := local_write_ok
  let local_file' := if local_success then some collections_data else local_file
  (if configured then cloudinary_success else local_success, remote_doc', local_file')

/-- `get_next_photo_id` applied to the loaded photo list: `1` when empty,
else `max(photo['id'] for photo in photos_data) + 1`. -/
def get_next_photo_id (photos_data : List Photo) : Int :=
  match photos_data with
  | [] => 1
  | p :: rest => rest.foldl (fun m q => max m q.id) p.id + 1

/-- `get_next_collection_id` applied to the loaded collection list. -/
def get_next_collection_id (collections_data : List Collection) : Int :=
  match collections_data with
  | [] => 1
  | c :: rest => rest.foldl (fun m q => max m q.id) c.id + 1

/-- `get_collection_photo_count`: counts photos whose `collection_id` field
equals the argument under Python `==` (no coercion). -/
def get_collection_photo_count (photos_data : List Photo) (collection_id : CVal) : Nat :=
  (photos_data.filter (fun p => pyEq p.collection_id collection_id)).length

/-- Modelled from the spec (for comparison with `get_collection_photo_count`):
a count that coerces both sides to a canonical string form before comparing,
as §4.3 of the specification describes. -/
def photo_count_strcoerced (photos_data : List Photo) (collection_id : CVal) : Nat :=
  (photos_data.filter (fun p => pyStr p.collection_id == pyStr collection_id)).length

/-- `get_collection_name`: `None` for a falsy id, else the name of the first
collection whose stored integer `id` equals the argument under Python `==`. -/
def get_collection_name (collections_data : List Collection) (collection_id : CVal) :
    Option String :=
  if pyTruthy collection_id then
    match collections_data.find? (fun c => pyEq (CVal.vint c.id) collection_id) with
    | some c => some c.name
    | none => none
  else none

/-- The JSON-envelope error classes of the handlers (401, 400, 404, 500). -/
inductive ApiError where
  | unauthorized : ApiError
  | badRequest : String → ApiError
  | notFound : String → ApiError
  | serverError : String → ApiError
deriving DecidableEq, Repr

/-- The shared-secret admin password checked by every mutating handler. -/
def ADMIN_PASSWORD : String := "Hanshow99@"

/-- Python `str.strip()`: drop leading and trailing whitespace. -/
def pyStrip (s : String) : String :=
  String.mk (((s.data.dropWhile Char.isWhitespace).reverse.dropWhile
    Char.isWhitespace).reverse)

/-- Python `str.lower()` (over the ASCII range used by the handlers). -/
def pyLower (s : String) : String :=
  String.mk (s.data.map Char.toLower)

/-- `create_collection` handler over the loaded collection list: auth check,
`name` stripped, nonempty and case-insensitively fresh; on success the new
record is appended and the full list saved (`save_ok` is the outcome of
`save_collections_data`).  Second component: the list handed to
`save_collections_data`, `none` when no save was attempted. -/
def create_collection (password : String) (name_field : Option String)
    (collections_data : List Collection) (now : String) (save_ok : Bool) :
    Except ApiError Collection × Option (List Collection) :=
  if password != ADMIN_PASSWORD then (.error .unauthorized, none)
  else
    let name := pyStrip (name_field.getD "")
    if name == "" then (.error (.badRequest "Collection name is required"), none)
    else if collections_data.any (fun c => pyLower c.name == pyLower name) then
      (.error (.badRequest "Collection name already exists"), none)
    else
      let new_collection : Collection := ⟨get_next_collection_id collections_data, name, now⟩
      let collections_data' := collections_data ++ [new_collection]
      (if save_ok then .ok new_collection else .error (.serverError "Failed to save collection"),
        some collections_data')

/-- In-place rename of the first collection with the given id (`next(...)`
followed by mutation of the found dict in `update_collection`). -/
def set_collection_name_first (collection_id : Int) (name : String) :
    List Collection → List Collection
  | [] => []
  | c :: rest =>
    if c.id == collection_id then { c with name := name } :: rest
    else c :: set_collection_name_first collection_id name rest

/-- `update_collection` handler: auth, nonempty stripped name, collection
must exist, name must not belong to a different collection
(case-insensitively); then renames in place and saves the full list. -/
def update_collection (password : String) (collection_id : Int) (name_field : Option String)
    (collections_data : List Collection) (save_ok : Bool) :
    Except ApiError Collection × Option (List Collection) :=
  if password != ADMIN_PASSWORD then (.error .unauthorized, none)
  else
    let name := pyStrip (name_field.getD "")
    if name == "" then (.error (.badRequest "Collection name is required"), none)
    else
      match collections_data.find? (fun c => c.id == collection_id) with
      | none => (.error (.notFound "Collection not found"), none)
      | some collection =>
        if collections_data.any (fun c => pyLower c.name == pyLower name
            && c.id != collection_id) then
          (.error (.badRequest "Collection name already exists"), none)
        else
          let collections_data' := set_collection_name_first collection_id name collections_data
          (if save_ok then .ok { collection with name := name }
            else .error (.serverError "Failed to save collection"),
            some collections_data')

/-- The filter of `get_collection_photos`: `collection_id` not `None` and
equal to the route's integer after coercing both sides with `str(...)`. -/
def collection_photo_match (collection_id : Int) (p : Photo) : Bool :=
  p.collection_id != CVal.vnull && (pyStr p.collection_id == toString collection_id)

/-- The comparison under which `get_collection_photos` sorts: `p` may come
before `q` when `q`'s upload date is `≤` `p`'s (descending; a stable sort
under this relation is exactly Python's stable `sort(key=..., reverse=True)`). -/
def upload_date_le (p q : Photo) : Bool :=
  decide (q.upload_date ≤ p.upload_date)

/-- `get_collection_photos`: 404 (`none`) when no collection has the id;
otherwise the string-coerced matching photos, stably sorted by upload date
descending, together with the found collection. -/
def get_collection_photos (photos_data : List Photo) (collections_data : List Collection)
    (collection_id : Int) : Option (List Photo × Collection) :=
  match collections_data.find? (fun c => c.id == collection_id) with
  | none => none
  | some collection =>
    let collection_photos := photos_data.filter (collection_photo_match collection_id)
    some (collection_photos.mergeSort upload_date_le, collection)

/-- In-place update of the first photo with the given id, setting its
`collection_id` (mutation of the dict found by `next(...)`). -/
def set_photo_collection_first (photo_id : Int) (cid : CVal) : List Photo → List Photo
  | [] => []
  | p :: rest =>
    if p.id == photo_id then { p with collection_id := cid } :: rest
    else p :: set_photo_collection_first photo_id cid rest

/-- Result of the `update_photo_collection` handler: the response, the
in-memory photo list afterwards, what was written to the local cache file
(`none` = no successful write) and the context value written to the remote
asset (`none` = no remote write). -/
structure PhotoUpdateResult where
  response : Except ApiError Unit
  photos_data : List Photo
  local_written : Option (List Photo)
  remote_context_written : Option (Int × String)
deriving Repr

/-- Tail of `update_photo_collection` after collection validation: find the
photo (404 if absent); when Cloudinary is configured and the photo has a
public id, attempt the remote context update and fail the whole request on
its failure; otherwise assign and write the local cache (best-effort). -/
def update_photo_collection_apply (photo_id : Int) (cid : CVal) (photos_data : List Photo)
    (configured : Bool) (remote_ok : Bool) (local_ok : Bool) : PhotoUpdateResult :=
  match photos_data.find? (fun p => p.id == photo_id) with
  | none => ⟨.error (.notFound "Photo not found"), photos_data, none, none⟩
  | some photo =>
    let remote_attempt := configured && photo.cloudinary_public_id.isSome
    if remote_attempt && !remote_ok then
      ⟨.error (.serverError "Failed to update photo in Cloudinary"), photos_data, none, none⟩
    else
      let photos_data' := set_photo_collection_first photo_id cid photos_data
      ⟨.ok (), photos_data',
        if local_ok then some photos_data' else none,
        if remote_attempt then some (photo_id, if pyTruthy cid then pyStr cid else "")
        else none⟩

/-- `update_photo_collection` handler: auth; for a truthy `collection_id`
convert with `int(...)` (a raised `ValueError` is caught by the handler's
broad `except`, yielding a 500) and require the collection to exist; a falsy
`collection_id` (including `0` and `""`) skips validation and is assigned
as-is. -/
def update_photo_collection (password : String) (photo_id : Int) (collection_id : CVal)
    (collections_data : List Collection) (photos_data : List Photo)
    (configured : Bool) (remote_ok : Bool) (local_ok : Bool) : PhotoUpdateResult :=
  if password != ADMIN_PASSWORD then ⟨.error .unauthorized, photos_data, none, none⟩
  else if pyTruthy collection_id then
    match pyInt collection_id with
    | none => ⟨.error (.serverError "invalid literal for int"), photos_data, none, none⟩
    | some n =>
      if !(collections_data.any (fun c => c.id == n)) then
        ⟨.error (.badRequest "Invalid collection ID"), photos_data, none, none⟩
      else update_photo_collection_apply photo_id (CVal.vint n) photos_data
        configured remote_ok local_ok
  else update_photo_collection_apply photo_id collection_id photos_data
    configured remote_ok local_ok

/-- File suffix selection of `upload_photo`:
`filename.rsplit('.', 1)[1].lower() if '.' in filename else 'jpg'`. -/
def ext_of (filename : String) : String :=
  if filename.data.contains '.' then
    pyLower (String.mk ((filename.data.reverse.takeWhile (fun c => c != '.')).reverse))
  else "jpg"

/-- The generated unique filename: `f"{uuid4().hex}.{file_extension}"`. -/
def unique_filename_of (uuid_hex : String) (filename : String) : String :=
  uuid_hex ++ "." ++ ext_of filename

/-- Result of the `upload_photo` handler: the response (the built photo
record on success), the remote asset list afterwards, the local cache file
afterwards (the handler never writes it), and the `public_id` sent to the
remote upload call (`none` = no remote call made). -/
structure UploadResult where
  response : Except ApiError Photo
  remote_photos : Option (List Photo)
  local_file : Option (List Photo)
  sent_public_id : Option String
deriving Repr

/-- `upload_photo` handler: auth; `title`/`description` default only when the
form key is absent; a truthy `collection_id` form value is `int(...)`-parsed
(parse failure → 400) and must reference an existing collection; a file must
be present with a nonempty filename; a fresh id is allocated; the upload only
proceeds when Cloudinary is configured, attaching the metadata as context
(`upload_ok` is the remote call's outcome, `upload_secure_url` /
`upload_public_id` what the remote service returns). -/
def upload_photo (password : String)
    (title_field description_field collection_id_field : Option String)
    (file_name : Option String) (collections_data : List Collection)
    (photos_data : List Photo) (configured : Bool) (upload_ok : Bool)
    (now uuid_hex upload_secure_url upload_public_id : String)
    (remote_photos : Option (List Photo)) (local_file : Option (List Photo)) :
    UploadResult :=
  if password != ADMIN_PASSWORD then
    ⟨.error .unauthorized, remote_photos, local_file, none⟩
  else
    let title := title_field.getD "Untitled"
    let description := description_field.getD ""
    let cid_check : Except ApiError (Option Int) :=
      match collection_id_field with
      | some s =>
        if s != "" then
          match pyParseInt s.data with
          | none => .error (.badRequest "Invalid collection ID format")
          | some n =>
            if collections_data.any (fun c => c.id == n) then .ok (some n)
            else .error (.badRequest "Invalid collection ID")
        else .ok none
      | none => .ok none
    match cid_check with
    | .error e => ⟨.error e, remote_photos, local_file, none⟩
    | .ok collection_id =>
      match file_name with
      | none => ⟨.error (.badRequest "No photo file provided"), remote_photos, local_file, none⟩
      | some fname =>
        if fname == "" then
          ⟨.error (.badRequest "No photo file selected"), remote_photos, local_file, none⟩
        else
          let unique_filename := unique_filename_of uuid_hex fname
          let photo_id := get_next_photo_id photos_data
          if configured then
            let sent := "photo_" ++ toString photo_id ++ "_" ++ unique_filename
            if upload_ok then
              let photo_data : Photo :=
                { id := photo_id, filename := fname, title := title,
                  description := description,
                  collection_id := match collection_id with
                    | some n => CVal.vint n
                    | none => CVal.vnull,
                  cloudinary_url := upload_secure_url,
                  cloudinary_public_id := some upload_public_id,
                  image_url := upload_secure_url,
                  upload_date := now, storage_type := "cloudinary" }
              ⟨.ok photo_data, remote_photos.map (fun l => l ++ [photo_data]),
                local_file, some sent⟩
            else ⟨.error (.serverError "Upload failed"), remote_photos, local_file, some sent⟩
          else ⟨.error (.serverError "Cloudinary not configured"),
            remote_photos, local_file, none⟩

/-- Result of the `delete_photo` handler: the response, the in-memory photo
list afterwards, what was written to the local cache file (`none` = no
successful write), and the remote asset list afterwards. -/
structure DeleteResult where
  response : Except ApiError Unit
  photos_data : List Photo
  local_written : Option (List Photo)
  remote_photos : Option (List Photo)
deriving Repr

/-- `delete_photo` handler: auth; 404 when no photo has the id; best-effort
remote asset deletion (`destroy_ok` is its outcome; failure is swallowed);
the photo is always removed from the list and the local cache written
best-effort. -/
def delete_photo (password : String) (photo_id : Int) (photos_data : List Photo)
    (remote_photos : Option (List Photo)) (configured : Bool) (destroy_ok : Bool)
    (local_ok : Bool) : DeleteResult :=
  if password != ADMIN_PASSWORD then
    ⟨.error .unauthorized, photos_data, none, remote_photos⟩
  else
    match photos_data.find? (fun p => p.id == photo_id) with
    | none => ⟨.error (.notFound "Photo not found"), photos_data, none, remote_photos⟩
    | some photo =>
      let remote_photos' :=
        if configured && photo.cloudinary_public_id.isSome && destroy_ok then
          remote_photos.map
            (fun l => l.filter (fun q => q.cloudinary_public_id != photo.cloudinary_public_id))
        else remote_photos
      let photos_data' := photos_data.filter (fun p => p.id != photo_id)
      ⟨.ok (), photos_data', if local_ok then some photos_data' else none, remote_photos'⟩

/-! ### Helper lemmas -/

theorem foldl_max_init_le {α : Type} (key : α → Int) (a : Int) (l : List α) :
    a ≤ l.foldl (fun m x => max m (key x)) a := by
  induction l generalizing a with
  | nil => exact le_refl a
  | cons x t ih => exact le_trans (le_max_left a (key x)) (ih (max a (key x)))

theorem foldl_max_mem_le {α : Type} (key : α → Int) (a : Int) (l : List α) :
    ∀ x ∈ l, key x ≤ l.foldl (fun m y => max m (key y)) a := by
  induction l generalizing a with
  | nil => intro x hx; cases hx
  | cons y t ih =>
    intro x hx
    rcases List.mem_cons.mp hx with h | h
    · subst h
      exact le_trans (le_max_right a (key x)) (foldl_max_init_le key _ t)
    · exact ih (max a (key y)) x h

theorem foldl_max_eq_init_or_mem {α : Type} (key : α → Int) (a : Int) (l : List α) :
    l.foldl (fun m x => max m (key x)) a = a ∨
      ∃ x ∈ l, l.foldl (fun m x => max m (key x)) a = key x := by
  induction l generalizing a with
  | nil => left; rfl
  | cons y t ih =>
    rcases ih (max a (key y)) with h | ⟨x, hx, h⟩
    · rcases max_choice a (key y) with hm | hm
      · left
        rw [List.foldl_cons, h, hm]
      · right
        exact ⟨y, List.mem_cons_self y t, by rw [List.foldl_cons, h, hm]⟩
    · right
      exact ⟨x, List.mem_cons_of_mem y hx, by rw [List.foldl_cons]; exact h⟩

/-- Every existing photo id is strictly below the allocated next id. -/
theorem get_next_photo_id_gt (ps : List Photo) : ∀ q ∈ ps, q.id < get_next_photo_id ps := by
  cases ps with
  | nil => intro q hq; cases hq
  | cons p rest =>
    intro q hq
    rcases List.mem_cons.mp hq with h | h
    · subst h
      have h1 : q.id ≤ rest.foldl (fun m x => max m x.id) q.id :=
        foldl_max_init_le (fun x => x.id) q.id rest
      simp only [get_next_photo_id]
      omega
    · have h1 : q.id ≤ rest.foldl (fun m x => max m x.id) p.id :=
        foldl_max_mem_le (fun x => x.id) p.id rest q h
      simp only [get_next_photo_id]
      omega

/-- On a nonempty photo list the allocator returns some member's id plus one. -/
theorem get_next_photo_id_succ_mem (ps : List Photo) (h : ps ≠ []) :
    ∃ q ∈ ps, get_next_photo_id ps = q.id + 1 := by
  cases ps with
  | nil => exact absurd rfl h
  | cons p rest =>
    rcases foldl_max_eq_init_or_mem (fun x => x.id) p.id rest with h1 | ⟨x, hx, h1⟩
    · exact ⟨p, List.mem_cons_self p rest, by simp only [get_next_photo_id]; omega⟩
    · exact ⟨x, List.mem_cons_of_mem p hx, by simp only [get_next_photo_id]; omega⟩

/-- Every existing collection id is strictly below the allocated next id. -/
theorem get_next_collection_id_gt (cs : List Collection) :
    ∀ c ∈ cs, c.id < get_next_collection_id cs := by
  cases cs with
  | nil => intro c hc; cases hc
  | cons c0 rest =>
    intro c hc
    rcases List.mem_cons.mp hc with h | h
    · subst h
      have h1 : c.id ≤ rest.foldl (fun m x => max m x.id) c.id :=
        foldl_max_init_le (fun x => x.id) c.id rest
      simp only [get_next_collection_id]
      omega
    · have h1 : c.id ≤ rest.foldl (fun m x => max m x.id) c0.id :=
        foldl_max_mem_le (fun x => x.id) c0.id rest c h
      simp only [get_next_collection_id]
      omega

/-- On a nonempty collection list the allocator returns some member's id
plus one. -/
theorem get_next_collection_id_succ_mem (cs : List Collection) (h : cs ≠ []) :
    ∃ c ∈ cs, get_next_collection_id cs = c.id + 1 := by
  cases cs with
  | nil => exact absurd rfl h
  | cons c0 rest =>
    rcases foldl_max_eq_init_or_mem (fun x => x.id) c0.id rest with h1 | ⟨x, hx, h1⟩
    · exact ⟨c0, List.mem_cons_self c0 rest, by simp only [get_next_collection_id]; omega⟩
    · exact ⟨x, List.mem_cons_of_mem c0 hx, by simp only [get_next_collection_id]; omega⟩

/-- Python `==` on `CVal` agrees with propositional equality. -/
theorem pyEq_iff (x y : CVal) : pyEq x y = true ↔ x = y := by
  cases x <;> cases y <;> simp [pyEq]

/-! ### Claims -/

/-- C2: the ID allocators return 1 on an empty sequence and `max id + 1`
otherwise (the result exceeds every present id and is one more than a
present id); on ids {3, 7, 2} they return 8.  Holds for both the photo and
the collection allocator. -/
theorem next_id_spec (ps : List Photo) (cs : List Collection)
    (hp : ps ≠ []) (hc : cs ≠ []) :
    get_next_photo_id [] = 1 ∧ get_next_collection_id [] = 1 ∧
    ((∀ q ∈ ps, q.id < get_next_photo_id ps) ∧
      ∃ q ∈ ps, get_next_photo_id ps = q.id + 1) ∧
    ((∀ c ∈ cs, c.id < get_next_collection_id cs) ∧
      ∃ c ∈ cs, get_next_collection_id cs = c.id + 1) ∧
    get_next_photo_id
      [mkPhoto 3 .vnull "" none, mkPhoto 7 .vnull "" none, mkPhoto 2 .vnull "" none] = 8 ∧
    get_next_collection_id [⟨3, "a", ""⟩, ⟨7, "b", ""⟩, ⟨2, "c", ""⟩] = 8 := by
  refine ⟨rfl, rfl, ⟨get_next_photo_id_gt ps, get_next_photo_id_succ_mem ps hp⟩,
    ⟨get_next_collection_id_gt cs, get_next_collection_id_succ_mem cs hc⟩, by decide, by decide⟩

/-- Witness for C2 at concrete nonempty inputs. -/
theorem next_id_spec_witness :
    (∀ q ∈ [mkPhoto 3 .vnull "" none], q.id < get_next_photo_id [mkPhoto 3 .vnull "" none]) ∧
    (∃ c ∈ [(⟨5, "a", ""⟩ : Collection)],
      get_next_collection_id [(⟨5, "a", ""⟩ : Collection)] = c.id + 1) :=
  ⟨(next_id_spec [mkPhoto 3 .vnull "" none] [⟨5, "a", ""⟩]
      (by decide) (by decide)).2.2.1.1,
   (next_id_spec [mkPhoto 3 .vnull "" none] [⟨5, "a", ""⟩]
      (by decide) (by decide)).2.2.2.1.2⟩

/-- C1 counterexample: `get_collection_photo_count` and `get_collection_name`
apply no string coercion — a photo whose `collection_id` is stored as the
string "3" is not counted under the integer query 3 (and vice versa), while
the spec's string-coerced count does count it, and a string query never finds
a collection. -/
theorem photo_count_no_coercion_cex :
    get_collection_photo_count [mkPhoto 1 (CVal.vstr "3") "" none] (CVal.vint 3) = 0 ∧
    photo_count_strcoerced [mkPhoto 1 (CVal.vstr "3") "" none] (CVal.vint 3) = 1 ∧
    get_collection_photo_count [mkPhoto 1 (CVal.vint 3) "" none] (CVal.vstr "3") = 0 ∧
    photo_count_strcoerced [mkPhoto 1 (CVal.vint 3) "" none] (CVal.vstr "3") = 1 ∧
    get_collection_name [⟨3, "Weddings", ""⟩] (CVal.vstr "3") = none := by
  decide

/-- C1 amended: `photo_count` counts exactly the photos whose stored
`collection_id` equals the argument under plain type-sensitive equality (no
coercion: integer 3 and string "3" never match), and `collection_name` never
finds a collection for a string-typed query since stored ids are integers. -/
theorem photo_count_plain_equality (q : CVal) (p : Photo) (ps : List Photo)
    (cs : List Collection) (s : String) :
    get_collection_photo_count [] q = 0 ∧
    get_collection_photo_count (p :: ps) q =
      (if p.collection_id = q then 1 else 0) + get_collection_photo_count ps q ∧
    get_collection_name cs (CVal.vstr s) = none := by
  refine ⟨rfl, ?_, ?_⟩
  · by_cases h : p.collection_id = q
    · have hb : pyEq p.collection_id q = true := (pyEq_iff _ _).mpr h
      simp only [get_collection_photo_count, List.filter_cons, hb, if_pos h,
        if_true, List.length_cons]
      omega
    · have hb : pyEq p.collection_id q = false := by
        rcases Bool.eq_false_or_eq_true (pyEq p.collection_id q) with ht | hf
        · exact absurd ((pyEq_iff _ _).mp ht) h
        · exact hf
      simp only [get_collection_photo_count, List.filter_cons, hb, if_neg h,
        Bool.false_eq_true, if_false, Nat.zero_add]
  · rcases Bool.eq_false_or_eq_true (pyTruthy (CVal.vstr s)) with ht | hf
    · have hfind : cs.find? (fun c => pyEq (CVal.vint c.id) (CVal.vstr s)) = none :=
        List.find?_eq_none.mpr (fun c _ => by simp [pyEq])
      simp [get_collection_name, ht, hfind]
    · simp [get_collection_name, hf]

/-- C3: for both photos and collections, a failed, unconfigured or empty
remote query falls back to the local cache file (`[]` when that file is
absent or unreadable), while a nonempty remote result is returned and
overwrites the local cache best-effort. -/
theorem load_data_fallback_spec (lf : Option (List Photo)) (lfc : Option (List Collection))
    (w : Bool) (p : Photo) (l : List Photo) (c : Collection) (lc : List Collection) :
    (load_photos_data .failure lf w).1 = lf.getD [] ∧
    (load_photos_data .unconfigured lf w).1 = lf.getD [] ∧
    (load_photos_data (.success []) lf w).1 = lf.getD [] ∧
    (load_photos_data .failure none w).1 = [] ∧
    load_photos_data (.success (p :: l)) lf w = (p :: l, if w then some (p :: l) else lf) ∧
    (load_collections_data .failure lfc w).1 = lfc.getD [] ∧
    (load_collections_data .unconfigured lfc w).1 = lfc.getD [] ∧
    (load_collections_data (.success []) lfc w).1 = lfc.getD [] ∧
    (load_collections_data .failure none w).1 = [] ∧
    load_collections_data (.success (c :: lc)) lfc w =
      (c :: lc, if w then some (c :: lc) else lfc) :=
  ⟨rfl, rfl, rfl, rfl, rfl, rfl, rfl, rfl, rfl, rfl⟩

/-- C4: `save_collections_data` always performs the local write (its outcome
depends only on the local write's success), the reported success equals the
remote outcome when configured and the local outcome otherwise, and the
remote document's fate is independent of the local outcome. -/
theorem save_collections_spec (data : List Collection) (configured r lo : Bool)
    (rd lf : Option (List Collection)) :
    (save_collections_data data configured r lo rd lf).1 = (if configured then r else lo) ∧
    (save_collections_data data configured r lo rd lf).2.2 = (if lo then some data else lf) ∧
    (save_collections_data data configured r lo rd lf).2.1 =
      (if configured && r then some data else rd) := by
  cases configured <;> simp [save_collections_data]

/-- Transitivity of the descending upload-date comparison. -/
theorem upload_date_le_trans :
    ∀ (a b c : Photo), upload_date_le a b → upload_date_le b c → upload_date_le a c := by
  intro a b c hab hbc
  simp only [upload_date_le, decide_eq_true_eq] at *
  exact le_trans hbc hab

/-- Totality of the descending upload-date comparison. -/
theorem upload_date_le_total :
    ∀ (a b : Photo), upload_date_le a b || upload_date_le b a := by
  intro a b
  simp only [upload_date_le, Bool.or_eq_true, decide_eq_true_eq]
  exact le_total b.upload_date a.upload_date

/-- C5: `get_collection_photos` returns a 404-equivalent failure when no
collection has the requested id; otherwise the returned list is a
permutation of the string-coerced matching photos, sorted by `upload_date`
descending, with ties kept in stable input order (for each date, the
tied photos appear exactly as in the input filter). -/
theorem get_collection_photos_spec (ps : List Photo) (cs : List Collection) (cid : Int) :
    ((∀ c ∈ cs, c.id ≠ cid) → get_collection_photos ps cs cid = none) ∧
    (∀ l coll, get_collection_photos ps cs cid = some (l, coll) →
      l.Perm (ps.filter (collection_photo_match cid)) ∧
      l.Pairwise (fun a b => b.upload_date ≤ a.upload_date) ∧
      ∀ d : String, l.filter (fun a => a.upload_date == d) =
        (ps.filter (collection_photo_match cid)).filter (fun a => a.upload_date == d)) := by
  constructor
  · intro h
    have hf : cs.find? (fun c => c.id == cid) = none :=
      List.find?_eq_none.mpr (fun c hc => by simpa using h c hc)
    simp [get_collection_photos, hf]
  · intro l coll hsome
    cases hf : cs.find? (fun c => c.id == cid) with
    | none => simp [get_collection_photos, hf] at hsome
    | some c0 =>
      simp only [get_collection_photos, hf, Option.some.injEq, Prod.mk.injEq] at hsome
      obtain ⟨hl, -⟩ := hsome
      subst hl
      refine ⟨List.mergeSort_perm _ _, ?_, ?_⟩
      · have hs := List.sorted_mergeSort
          upload_date_le_trans upload_date_le_total
          (ps.filter (collection_photo_match cid))
        exact hs.imp (fun h => by
          simpa only [upload_date_le, decide_eq_true_eq] using h)
      · intro d
        set F := ps.filter (collection_photo_match cid) with hF
        set Fd := F.filter (fun a => a.upload_date == d) with hFd
        have hmemd : ∀ a ∈ Fd, a.upload_date = d := by
          intro a ha
          have := (List.mem_filter.mp ha).2
          simpa using this
        have h1 : Fd.Pairwise (fun a b => upload_date_le a b = true) := by
          apply List.pairwise_of_forall_mem_list
          intro a ha b hb
          simp only [upload_date_le, decide_eq_true_eq, hmemd a ha, hmemd b hb, le_refl]
        have h2 : List.Sublist Fd F := List.filter_sublist F
        have h3 : List.Sublist Fd (F.mergeSort upload_date_le) :=
          List.sublist_mergeSort upload_date_le_trans upload_date_le_total h1 h2
        have h4 : ((F.mergeSort upload_date_le).filter (fun a => a.upload_date == d)).Perm Fd :=
          (List.mergeSort_perm F upload_date_le).filter _
        have hFd_self : Fd.filter (fun a => a.upload_date == d) = Fd :=
          List.filter_eq_self.mpr (fun a ha => (List.mem_filter.mp ha).2)
        have h5 : List.Sublist Fd ((F.mergeSort upload_date_le).filter (fun a => a.upload_date == d)) := by
          have := h3.filter (fun a => a.upload_date == d)
          rwa [hFd_self] at this
        have h6 : Fd.length =
            ((F.mergeSort upload_date_le).filter (fun a => a.upload_date == d)).length :=
          (h4.symm).length_eq
        exact (h5.eq_of_length h6).symm

/-- Witness for C5: the 404 branch on an empty collection set, and the
permutation conclusion at a one-photo input. -/
theorem get_collection_photos_spec_witness :
    get_collection_photos [] [] 5 = none ∧
    [mkPhoto 1 (CVal.vint 3) "a" none].Perm
      ([mkPhoto 1 (CVal.vint 3) "a" none].filter (collection_photo_match 3)) := by
  constructor
  · exact (get_collection_photos_spec [] [] 5).1 (by intro c hc; cases hc)
  · exact ((get_collection_photos_spec [mkPhoto 1 (CVal.vint 3) "a" none]
      [⟨3, "W", "x"⟩] 3).2 [mkPhoto 1 (CVal.vint 3) "a" none] ⟨3, "W", "x"⟩
      (by simp [get_collection_photos, collection_photo_match, pyStr, mkPhoto])).1

/-- C6: creating a collection whose stripped name matches an existing name
case-insensitively fails with a conflict and attempts no save (the stored set
is unchanged); renaming fails likewise when a different collection already
has the name; both operations reject an empty (stripped) name. -/
theorem collection_name_validation (cs : List Collection) (name0 now : String)
    (so : Bool) (cid : Int) :
    ((pyStrip name0 ≠ "") → (∃ c ∈ cs, pyLower c.name = pyLower (pyStrip name0)) →
      create_collection ADMIN_PASSWORD (some name0) cs now so =
        (.error (.badRequest "Collection name already exists"), none)) ∧
    ((∃ c0 ∈ cs, c0.id = cid) → (pyStrip name0 ≠ "") →
      (∃ c ∈ cs, pyLower c.name = pyLower (pyStrip name0) ∧ c.id ≠ cid) →
      update_collection ADMIN_PASSWORD cid (some name0) cs so =
        (.error (.badRequest "Collection name already exists"), none)) ∧
    (pyStrip name0 = "" →
      create_collection ADMIN_PASSWORD (some name0) cs now so =
        (.error (.badRequest "Collection name is required"), none) ∧
      update_collection ADMIN_PASSWORD cid (some name0) cs so =
        (.error (.badRequest "Collection name is required"), none)) := by
  refine ⟨?_, ?_, ?_⟩
  · intro hne ⟨c, hc, hname⟩
    have hany : cs.any (fun c => pyLower c.name == pyLower (pyStrip name0)) = true :=
      List.any_eq_true.mpr ⟨c, hc, by simp [hname]⟩
    simp [create_collection, hne, hany]
  · intro ⟨c0, hc0, hc0id⟩ hne ⟨c, hc, hname, hcid⟩
    have hsome : (cs.find? (fun c => c.id == cid)).isSome :=
      List.find?_isSome.mpr ⟨c0, hc0, by simp [hc0id]⟩
    obtain ⟨c1, hc1⟩ := Option.isSome_iff_exists.mp hsome
    have hany : cs.any (fun c => pyLower c.name == pyLower (pyStrip name0)
        && c.id != cid) = true :=
      List.any_eq_true.mpr ⟨c, hc, by simp [hname, hcid]⟩
    simp [update_collection, hne, hc1, hany]
  · intro hempty
    constructor
    · simp [create_collection, hempty]
    · simp [update_collection, hempty]

/-- Witness for C6: a case-insensitive duplicate blocks creation and
renaming, and a whitespace-only name is rejected, at concrete inputs. -/
theorem collection_name_validation_witness :
    create_collection ADMIN_PASSWORD (some " weddings ") [⟨1, "Weddings", "d"⟩] "t" true =
      (.error (.badRequest "Collection name already exists"), none) ∧
    update_collection ADMIN_PASSWORD 2 (some "WEDDINGS")
        [⟨1, "Weddings", "d"⟩, ⟨2, "Trips", "d"⟩] true =
      (.error (.badRequest "Collection name already exists"), none) ∧
    create_collection ADMIN_PASSWORD (some "  ") [] "t" true =
      (.error (.badRequest "Collection name is required"), none) := by
  refine ⟨?_, ?_, ?_⟩
  · exact (collection_name_validation [⟨1, "Weddings", "d"⟩] " weddings " "t" true 0).1
      (by decide) ⟨⟨1, "Weddings", "d"⟩, by simp, by decide⟩
  · exact (collection_name_validation [⟨1, "Weddings", "d"⟩, ⟨2, "Trips", "d"⟩]
      "WEDDINGS" "t" true 2).2.1
      ⟨⟨2, "Trips", "d"⟩, by simp, rfl⟩ (by decide)
      ⟨⟨1, "Weddings", "d"⟩, by simp, by decide, by decide⟩
  · exact ((collection_name_validation [] "  " "t" true 0).2.2 (by decide)).1

/-- C7 counterexample: the target collection_id `0` is non-null and
references no existing collection (the collection set is empty), yet the
reassignment succeeds — validation is skipped because `0` is falsy — and the
photo's `collection_id` is changed to `0` and written to the local cache. -/
theorem update_photo_collection_zero_cex :
    update_photo_collection ADMIN_PASSWORD 1 (CVal.vint 0) []
        [mkPhoto 1 (CVal.vint 5) "d" none] false true true =
      ⟨.ok (), [mkPhoto 1 (CVal.vint 0) "d" none],
        some [mkPhoto 1 (CVal.vint 0) "d" none], none⟩ := by
  rfl

/-- C7 amended: for a truthy target collection_id (non-null and not `0` or
`""`), a target that parses but references no collection fails with a
validation error leaving the photo untouched and nothing written to either
store, and an unparsable target fails likewise; whenever the remote context
update fails (remote configured and the photo has a remote asset id), the
whole reassignment fails without updating the local cache.  A falsy non-null
target skips validation and is assigned as-is. -/
theorem update_photo_collection_validation (cid0 : CVal) (cs : List Collection)
    (ps : List Photo) (c r lo : Bool) (pid n : Int) :
    (pyTruthy cid0 = true → pyInt cid0 = some n → (∀ col ∈ cs, col.id ≠ n) →
      update_photo_collection ADMIN_PASSWORD pid cid0 cs ps c r lo =
        ⟨.error (.badRequest "Invalid collection ID"), ps, none, none⟩) ∧
    (pyTruthy cid0 = true → pyInt cid0 = none →
      update_photo_collection ADMIN_PASSWORD pid cid0 cs ps c r lo =
        ⟨.error (.serverError "invalid literal for int"), ps, none, none⟩) ∧
    (∀ p, ps.find? (fun q => q.id == pid) = some p →
      p.cloudinary_public_id.isSome = true →
      (pyTruthy cid0 = false ∨ (pyInt cid0 = some n ∧ ∃ col ∈ cs, col.id = n)) →
      update_photo_collection ADMIN_PASSWORD pid cid0 cs ps true false lo =
        ⟨.error (.serverError "Failed to update photo in Cloudinary"), ps, none, none⟩) := by
  refine ⟨?_, ?_, ?_⟩
  · intro ht hint hno
    have hany : cs.any (fun col => col.id == n) = false := by
      rcases Bool.eq_false_or_eq_true (cs.any (fun col => col.id == n)) with htr | hfa
      · obtain ⟨col, hcol, hcoln⟩ := List.any_eq_true.mp htr
        exact absurd (by simpa using hcoln) (hno col hcol)
      · exact hfa
    simp [update_photo_collection, ht, hint, hany]
  · intro ht hint
    simp [update_photo_collection, ht, hint]
  · intro p hfind hps hval
    rcases Bool.eq_false_or_eq_true (pyTruthy cid0) with ht | hf
    · rcases hval with hfalse | ⟨hint, col, hcol, hcoln⟩
      · rw [hfalse] at ht; cases ht
      · have hany : cs.any (fun col => col.id == n) = true :=
          List.any_eq_true.mpr ⟨col, hcol, by simp [hcoln]⟩
        simp [update_photo_collection, ht, hint, hany,
          update_photo_collection_apply, hfind, hps]
    · simp [update_photo_collection, hf, update_photo_collection_apply, hfind, hps]

/-- Witness for C7's amended theorem at concrete inputs: a truthy
nonexistent target is rejected, an unparsable target errors, and a remote
context-update failure fails the whole operation without writes. -/
theorem update_photo_collection_validation_witness :
    update_photo_collection ADMIN_PASSWORD 1 (CVal.vint 9) []
        [mkPhoto 1 CVal.vnull "d" none] false true true =
      ⟨.error (.badRequest "Invalid collection ID"),
        [mkPhoto 1 CVal.vnull "d" none], none, none⟩ ∧
    update_photo_collection ADMIN_PASSWORD 1 (CVal.vstr "abc") [] [] true true true =
      ⟨.error (.serverError "invalid literal for int"), [], none, none⟩ ∧
    update_photo_collection ADMIN_PASSWORD 1 CVal.vnull []
        [mkPhoto 1 CVal.vnull "d" (some "pid")] true false true =
      ⟨.error (.serverError "Failed to update photo in Cloudinary"),
        [mkPhoto 1 CVal.vnull "d" (some "pid")], none, none⟩ := by
  refine ⟨?_, ?_, ?_⟩
  · exact (update_photo_collection_validation (CVal.vint 9) []
      [mkPhoto 1 CVal.vnull "d" none] false true true 1 9).1
      (by decide) (by decide) (by intro col hcol; cases hcol)
  · exact (update_photo_collection_validation (CVal.vstr "abc") [] [] true true true 1 0).2.1
      (by decide) (by decide)
  · exact (update_photo_collection_validation CVal.vnull []
      [mkPhoto 1 CVal.vnull "d" (some "pid")] true false true 1 0).2.2
      (mkPhoto 1 CVal.vnull "d" (some "pid")) (by decide) (by decide) (Or.inl (by decide))


/-- Case analysis of `upload_photo`: every run either fails, leaving both
stores untouched, or succeeds, returning the fully-built photo record,
appending it to the remote store and leaving the local cache file untouched. -/
theorem upload_photo_result_cases (pw : String) (t d cf : Option String) (fn : Option String)
    (cs : List Collection) (ps : List Photo) (c uok : Bool)
    (now uuid url pubid : String) (rp lf : Option (List Photo)) :
    ((∃ e, (upload_photo pw t d cf fn cs ps c uok now uuid url pubid rp lf).response =
        Except.error e) ∧
      (upload_photo pw t d cf fn cs ps c uok now uuid url pubid rp lf).remote_photos = rp ∧
      (upload_photo pw t d cf fn cs ps c uok now uuid url pubid rp lf).local_file = lf) ∨
    (∃ fname cid,
      (upload_photo pw t d cf fn cs ps c uok now uuid url pubid rp lf).response =
        .ok ⟨get_next_photo_id ps, fname, t.getD "Untitled", d.getD "", cid,
          url, some pubid, url, now, "cloudinary"⟩ ∧
      (upload_photo pw t d cf fn cs ps c uok now uuid url pubid rp lf).remote_photos =
        rp.map (fun l => l ++ [⟨get_next_photo_id ps, fname, t.getD "Untitled", d.getD "",
          cid, url, some pubid, url, now, "cloudinary"⟩]) ∧
      (upload_photo pw t d cf fn cs ps c uok now uuid url pubid rp lf).local_file = lf) := by
  simp only [upload_photo]
  split
  · exact Or.inl ⟨⟨_, rfl⟩, rfl, rfl⟩
  · split
    · exact Or.inl ⟨⟨_, rfl⟩, rfl, rfl⟩
    · split
      · exact Or.inl ⟨⟨_, rfl⟩, rfl, rfl⟩
      · split
        · exact Or.inl ⟨⟨_, rfl⟩, rfl, rfl⟩
        · split
          · split
            · exact Or.inr ⟨_, _, rfl, rfl, rfl⟩
            · exact Or.inl ⟨⟨_, rfl⟩, rfl, rfl⟩
          · exact Or.inl ⟨⟨_, rfl⟩, rfl, rfl⟩

/-- C8 counterexample: submitting a present-but-empty `title` creates a
photo whose title is the empty string, not "Untitled" (`form.get('title',
'Untitled')` only defaults when the key is absent). -/
theorem upload_photo_empty_title_cex :
    (upload_photo ADMIN_PASSWORD (some "") none none (some "pic") [] [] true true
        "d" "u" "s" "p" (some []) (some [])).response =
      .ok ⟨1, "pic", "", "", CVal.vnull, "s", some "p", "s", "d", "cloudinary"⟩ ∧
    ("" : String) ≠ "Untitled" :=
  ⟨rfl, by decide⟩

/-- C8 amended: a missing `title` form field defaults the created record's
title to "Untitled", while a submitted title (even the empty string) is
stored verbatim; the generated unique filename's extension is `jpg` whenever
the original filename contains no dot. -/
theorem upload_photo_title_default_spec (d cf : Option String) (fn : Option String)
    (cs : List Collection) (ps : List Photo) (uok : Bool)
    (now uuid url pubid : String) (rp lf : Option (List Photo)) (s : String) (fname : String) :
    (∀ photo, (upload_photo ADMIN_PASSWORD none d cf fn cs ps true uok
        now uuid url pubid rp lf).response = .ok photo → photo.title = "Untitled") ∧
    (∀ photo, (upload_photo ADMIN_PASSWORD (some s) d cf fn cs ps true uok
        now uuid url pubid rp lf).response = .ok photo → photo.title = s) ∧
    (fname.data.contains '.' = false →
      unique_filename_of uuid fname = uuid ++ "." ++ "jpg") := by
  refine ⟨?_, ?_, ?_⟩
  · intro photo h
    rcases upload_photo_result_cases ADMIN_PASSWORD none d cf fn cs ps true uok
        now uuid url pubid rp lf with ⟨⟨e, he⟩, -, -⟩ | ⟨f, cid, hok, -, -⟩
    · rw [he] at h; cases h
    · rw [hok] at h
      cases h
      rfl
  · intro photo h
    rcases upload_photo_result_cases ADMIN_PASSWORD (some s) d cf fn cs ps true uok
        now uuid url pubid rp lf with ⟨⟨e, he⟩, -, -⟩ | ⟨f, cid, hok, -, -⟩
    · rw [he] at h; cases h
    · rw [hok] at h
      cases h
      rfl
  · intro hc
    have hc' : ¬ ('.' ∈ fname.data) := by simpa using hc
    simp [unique_filename_of, ext_of, hc']

/-- Witness for C8's amended theorem: a missing title yields "Untitled", and
a dotless filename gets the `jpg` suffix, at concrete inputs. -/
theorem upload_photo_title_default_witness :
    (⟨1, "pic.PNG", "Untitled", "", CVal.vnull, "s", some "p", "s", "d", "cloudinary"⟩ :
      Photo).title = "Untitled" ∧
    unique_filename_of "u" "pic" = "u" ++ "." ++ "jpg" :=
  ⟨(upload_photo_title_default_spec none none (some "pic.PNG") [] [] true
      "d" "u" "s" "p" none none "x" "pic").1 _ rfl,
   (upload_photo_title_default_spec none none (some "pic.PNG") [] [] true
      "d" "u" "s" "p" none none "x" "pic").2.2 (by decide)⟩

/-- C10: a successful upload never touches the local photos cache file (the
local file is returned unchanged on every path); the new record is returned
in the response and appended to the remote store only, its id is fresh, and
a load performed while the remote is unreachable (serving the unchanged
local cache) does not contain it. -/
theorem upload_photo_local_frame (pw : String) (t d cf : Option String) (fn : Option String)
    (cs : List Collection) (ps : List Photo) (c uok : Bool)
    (now uuid url pubid : String) (rp lf : Option (List Photo)) (w : Bool) :
    (upload_photo pw t d cf fn cs ps c uok now uuid url pubid rp lf).local_file = lf ∧
    (∀ photo, (upload_photo pw t d cf fn cs ps c uok now uuid url pubid rp lf).response =
        .ok photo →
      photo.id = get_next_photo_id ps ∧
      (upload_photo pw t d cf fn cs ps c uok now uuid url pubid rp lf).remote_photos =
        rp.map (fun l => l ++ [photo]) ∧
      (∀ q ∈ ps, q.id ≠ photo.id) ∧
      (lf = some ps → photo ∉ (load_photos_data .failure lf w).1)) := by
  constructor
  · rcases upload_photo_result_cases pw t d cf fn cs ps c uok now uuid url pubid rp lf with
      ⟨-, -, hlf⟩ | ⟨f, cid, -, -, hlf⟩ <;> exact hlf
  · intro photo h
    rcases upload_photo_result_cases pw t d cf fn cs ps c uok now uuid url pubid rp lf with
      ⟨⟨e, he⟩, -, -⟩ | ⟨f, cid, hok, hrem, -⟩
    · rw [he] at h; cases h
    · rw [hok] at h
      cases h
      refine ⟨rfl, hrem, ?_, ?_⟩
      · intro q hq
        exact (get_next_photo_id_gt ps q hq).ne
      · intro hlf hmem
        rw [hlf] at hmem
        have hmem' : (⟨get_next_photo_id ps, f, t.getD "Untitled", d.getD "", cid,
            url, some pubid, url, now, "cloudinary"⟩ : Photo) ∈ ps := hmem
        exact absurd rfl (get_next_photo_id_gt ps _ hmem').ne

/-- Witness for C10 at a concrete successful upload: the local cache file is
untouched and the new record is absent from a local-fallback load. -/
theorem upload_photo_local_frame_witness :
    (upload_photo ADMIN_PASSWORD (some "T") none none (some "a.jpg") []
        [mkPhoto 1 CVal.vnull "d0" none] true true "d2" "u" "s" "p" none
        (some [mkPhoto 1 CVal.vnull "d0" none])).local_file =
      some [mkPhoto 1 CVal.vnull "d0" none] ∧
    (⟨2, "a.jpg", "T", "", CVal.vnull, "s", some "p", "s", "d2", "cloudinary"⟩ : Photo) ∉
      (load_photos_data .failure (some [mkPhoto 1 CVal.vnull "d0" none]) true).1 :=
  ⟨(upload_photo_local_frame ADMIN_PASSWORD (some "T") none none (some "a.jpg") []
      [mkPhoto 1 CVal.vnull "d0" none] true true "d2" "u" "s" "p" none
      (some [mkPhoto 1 CVal.vnull "d0" none]) true).1,
   ((upload_photo_local_frame ADMIN_PASSWORD (some "T") none none (some "a.jpg") []
      [mkPhoto 1 CVal.vnull "d0" none] true true "d2" "u" "s" "p" none
      (some [mkPhoto 1 CVal.vnull "d0" none]) true).2 _ rfl).2.2.2 rfl⟩

/-- Evaluation of `delete_photo` once the photo is found: success response,
removal from the list, best-effort local write, and remote deletion only
when configured, the photo has a remote asset id and the destroy succeeds. -/
theorem delete_photo_found_eq (ps : List Photo) (rp : Option (List Photo)) (pid : Int)
    (c dok lok : Bool) (p : Photo)
    (hfind : ps.find? (fun q => q.id == pid) = some p) :
    delete_photo ADMIN_PASSWORD pid ps rp c dok lok =
      ⟨.ok (), ps.filter (fun q => q.id != pid),
        if lok then some (ps.filter (fun q => q.id != pid)) else none,
        if c && p.cloudinary_public_id.isSome && dok then
          rp.map (fun l =>
            l.filter (fun q => q.cloudinary_public_id != p.cloudinary_public_id))
        else rp⟩ := by
  simp [delete_photo, hfind]

/-- C9 counterexample: with the remote configured, a failing best-effort
remote asset deletion still yields a success response and leaves the remote
store unchanged, so a subsequent load served from the remote returns the
supposedly deleted photo. -/
theorem delete_photo_remote_failure_cex :
    (delete_photo ADMIN_PASSWORD 1 [mkPhoto 1 CVal.vnull "d" (some "pid")]
        (some [mkPhoto 1 CVal.vnull "d" (some "pid")]) true false true).response = .ok () ∧
    (delete_photo ADMIN_PASSWORD 1 [mkPhoto 1 CVal.vnull "d" (some "pid")]
        (some [mkPhoto 1 CVal.vnull "d" (some "pid")]) true false true).remote_photos =
      some [mkPhoto 1 CVal.vnull "d" (some "pid")] ∧
    (load_photos_data (.success [mkPhoto 1 CVal.vnull "d" (some "pid")])
        (some []) true).1 = [mkPhoto 1 CVal.vnull "d" (some "pid")] :=
  ⟨rfl, rfl, rfl⟩

/-- C9 amended: deleting an existing photo always succeeds and removes it
from the local cache list, persisting when the local write succeeds; the
remote deletion is best-effort — on failure the operation still succeeds but
the remote store is unchanged; a second delete against the removed list
returns not-found; loads served from the updated local cache, or from the
remote after a successful remote deletion (given id/asset-id coherence), no
longer contain the photo. -/
theorem delete_photo_spec (ps : List Photo) (rp : Option (List Photo)) (pid : Int)
    (c dok lok : Bool) (p : Photo) (w w2 : Bool) (rp2 : Option (List Photo))
    (c2 dok2 lok2 : Bool)
    (hfind : ps.find? (fun q => q.id == pid) = some p) :
    (delete_photo ADMIN_PASSWORD pid ps rp c dok lok).response = .ok () ∧
    (delete_photo ADMIN_PASSWORD pid ps rp c dok lok).photos_data =
      ps.filter (fun q => q.id != pid) ∧
    (delete_photo ADMIN_PASSWORD pid ps rp c dok lok).local_written =
      (if lok then some (ps.filter (fun q => q.id != pid)) else none) ∧
    (dok = false → (delete_photo ADMIN_PASSWORD pid ps rp c dok lok).remote_photos = rp) ∧
    (delete_photo ADMIN_PASSWORD pid (ps.filter (fun q => q.id != pid))
      rp2 c2 dok2 lok2).response = .error (.notFound "Photo not found") ∧
    ((load_photos_data .failure (some (ps.filter (fun q => q.id != pid))) w).1.all
      (fun q => q.id != pid) = true) ∧
    (∀ rl l', rp = some rl → c = true → dok = true →
      p.cloudinary_public_id.isSome = true →
      (∀ q ∈ rl, q.id = pid → q.cloudinary_public_id = p.cloudinary_public_id) →
      (delete_photo ADMIN_PASSWORD pid ps rp c dok lok).remote_photos = some l' →
      (load_photos_data (.success l') (some (ps.filter (fun q => q.id != pid))) w2).1.all
        (fun q => q.id != pid) = true) := by
  have hlocal_all : ∀ q ∈ ps.filter (fun q => q.id != pid), (q.id != pid) = true :=
    fun q hq => (List.mem_filter.mp hq).2
  refine ⟨?_, ?_, ?_, ?_, ?_, ?_, ?_⟩
  · rw [delete_photo_found_eq ps rp pid c dok lok p hfind]
  · rw [delete_photo_found_eq ps rp pid c dok lok p hfind]
  · rw [delete_photo_found_eq ps rp pid c dok lok p hfind]
  · intro hdok
    rw [delete_photo_found_eq ps rp pid c dok lok p hfind]
    simp [hdok]
  · have hnone : (ps.filter (fun q => q.id != pid)).find? (fun q => q.id == pid) = none :=
      List.find?_eq_none.mpr (fun q hq => by simpa using hlocal_all q hq)
    simp [delete_photo, hnone]
  · exact List.all_eq_true.mpr hlocal_all
  · intro rl l' hrp hc hdok hps hcoh hl'
    rw [delete_photo_found_eq ps rp pid c dok lok p hfind] at hl'
    rw [hc, hdok, hps, hrp] at hl'
    simp only [Bool.and_self, Bool.true_and, if_true, Option.map_some',
      Option.some.injEq] at hl'
    subst hl'
    cases hfl : rl.filter (fun q => q.cloudinary_public_id != p.cloudinary_public_id) with
    | nil =>
      exact List.all_eq_true.mpr hlocal_all
    | cons a t =>
      apply List.all_eq_true.mpr
      intro q hq
      have hq2 : q ∈ a :: t := hq
      have hq' : q ∈ rl.filter (fun q => q.cloudinary_public_id != p.cloudinary_public_id) := by
        rw [hfl]
        exact hq2
      obtain ⟨hqmem, hqpub⟩ := List.mem_filter.mp hq'
      rcases Bool.eq_false_or_eq_true (q.id != pid) with htr | hfa
      · exact htr
      · exfalso
        have hqid : q.id = pid := by simpa using hfa
        have := hcoh q hqmem hqid
        rw [this] at hqpub
        simp at hqpub

/-- Witness for C9 at concrete inputs: deleting an existing photo succeeds
and a second delete against the removed list returns not-found. -/
theorem delete_photo_spec_witness :
    (delete_photo ADMIN_PASSWORD 1 [mkPhoto 1 CVal.vnull "d" (some "pid")]
        (some [mkPhoto 1 CVal.vnull "d" (some "pid")]) true true true).response = .ok () ∧
    (delete_photo ADMIN_PASSWORD 1 ([mkPhoto 1 CVal.vnull "d" (some "pid")].filter
        (fun q => q.id != 1)) none false true true).response =
      .error (.notFound "Photo not found") :=
  ⟨(delete_photo_spec [mkPhoto 1 CVal.vnull "d" (some "pid")]
      (some [mkPhoto 1 CVal.vnull "d" (some "pid")]) 1 true true true
      (mkPhoto 1 CVal.vnull "d" (some "pid")) true true none false true true rfl).1,
   (delete_photo_spec [mkPhoto 1 CVal.vnull "d" (some "pid")]
      (some [mkPhoto 1 CVal.vnull "d" (some "pid")]) 1 true true true
      (mkPhoto 1 CVal.vnull "d" (some "pid")) true true none false true true rfl).2.2.2.2.1⟩

end App
